import Mathlib

/-
Shallow embedding of the notebook `building_in_processing_in_graph.ipynb`.

The notebook defines a custom preprocessing layer `Normalize` whose `call`
method divides the input tensor elementwise by the literal 255.0, whose
`build` method sets `self.kernel = None`, and then assembles the functional
model

  inputs = Input((28, 28))
  x = Normalize()(inputs)
  x = Flatten()(x)
  x = Dense(128, activation = relu)(x)
  outputs = Dense(10, activation = sigmoid)(x)
  model = Model(inputs, outputs)

Tensors are embedded as a shape (list of dimensions) together with a flat
list of elements in row-major order.  The notebook's floating-point scalars
are modelled by exact field arithmetic: the rationals where decidable
evaluation matters, the reals where the sigmoid activation (which needs the
exponential function) is involved.
-/

/-- Tensor: a fixed-shape n-dimensional numeric array, stored as its shape
together with its elements flattened in row-major order. -/
structure Tensor (α : Type) where
  shape : List Nat
  data : List α
deriving DecidableEq

namespace Normalize

/-- Embedding of `Normalize.call` from the notebook: `inputs = inputs / 255.0`,
the division broadcast over every element of the tensor. -/
def call {α : Type} [Div α] [OfNat α 255] (t : Tensor α) : Tensor α :=
  ⟨t.shape, t.data.map (fun x => x / 255)⟩

/-- Elementwise division instrumented with an explicit division-by-zero
check, to express reachability of a division-by-zero error. -/
def divChecked (x d : ℚ) : Option ℚ :=
  if d = 0 then none else some (x / d)

/-- Fallible elementwise division of a whole list by a divisor, failing as
soon as any single division fails. -/
def mapDivChecked : List ℚ → ℚ → Option (List ℚ)
  | [], _ => some []
  | x :: xs, d =>
    match divChecked x d, mapDivChecked xs d with
    | some y, some ys => some (y :: ys)
    | _, _ => none

/-- The instrumented version of `Normalize.call`: every element is divided by
the fixed literal 255 through the checked division. -/
def callChecked (t : Tensor ℚ) : Option (Tensor ℚ) :=
  (mapDivChecked t.data 255).map (fun d => ⟨t.shape, d⟩)

/-- Inverse rescaling map from the spec: multiply every element by 255. -/
def scaleBack (t : Tensor ℚ) : Tensor ℚ :=
  ⟨t.shape, t.data.map (fun x => x * 255)⟩

end Normalize

/-- Layer state of the `Normalize` layer: the only attribute the notebook's
class ever assigns is `self.kernel` (set to `None` in `build`). -/
structure NormalizeLayer where
  kernel : Option (List ℚ)
deriving DecidableEq

namespace NormalizeLayer

/-- Embedding of `Normalize.build` from the notebook: it ignores the input
shape and sets `self.kernel = None`, installing no trainable kernel. -/
def build (_l : NormalizeLayer) (_inputShape : List Nat) : NormalizeLayer :=
  ⟨none⟩

/-- Embedding of the `Normalize.call` method as a state transformer on the
layer object: the method reads no attribute and assigns none, so the layer
state is returned unchanged next to the transformed tensor. -/
def callM (l : NormalizeLayer) (t : Tensor ℚ) : NormalizeLayer × Tensor ℚ :=
  (l, Normalize.call t)

end NormalizeLayer

/-- Dot product of a weight row with an input vector (zip-and-sum, as a
dense layer's affine map computes each unit). -/
def dot (ws xs : List ℝ) : ℝ :=
  (List.zip ws xs).foldl (fun a p => a + p.1 * p.2) 0

/-- The relu activation of the notebook's hidden dense layer. -/
def relu (x : ℝ) : ℝ := max 0 x

/-- The sigmoid activation of the notebook's output dense layer. -/
noncomputable def sigmoid (x : ℝ) : ℝ := 1 / (1 + Real.exp (-x))

namespace Flatten

/-- Embedding of the `Flatten()` stage: the elements are kept in row-major
order and the shape collapses to a single dimension. -/
def call (t : Tensor ℝ) : Tensor ℝ :=
  ⟨[t.shape.prod], t.data⟩

end Flatten

namespace Dense

/-- Embedding of a `Dense(units, activation)` stage: `w` holds one weight row
per unit, `b` one bias per unit; each output element is the activation of the
affine combination of the input with that unit's row and bias. -/
def call (w : List (List ℝ)) (b : List ℝ) (act : ℝ → ℝ) (t : Tensor ℝ) : Tensor ℝ :=
  ⟨[w.length], (List.zip w b).map (fun p => act (dot p.1 t.data + p.2))⟩

end Dense

/-- Pipeline: an ordered sequence of stages, each a map from tensor to
tensor. -/
def Pipeline := List (Tensor ℝ → Tensor ℝ)

/-- Run the input through each stage of the pipeline in order. -/
def Pipeline.apply (p : Pipeline) (t : Tensor ℝ) : Tensor ℝ :=
  p.foldl (fun acc f => f acc) t

/-- Embedding of the notebook's model assembly: the Normalize stage, then
Flatten, then Dense(128, relu) with parameters `w1, b1`, then
Dense(10, sigmoid) with parameters `w2, b2`, in that order.  The trained
weight and bias values are parameters of the definition. -/
noncomputable def model (w1 : List (List ℝ)) (b1 : List ℝ)
    (w2 : List (List ℝ)) (b2 : List ℝ) : Pipeline :=
  [Normalize.call, Flatten.call, Dense.call w1 b1 relu, Dense.call w2 b2 sigmoid]

/-- Shape-level description of a stage, for construction-time validation. -/
inductive StageSpec where
  | normalize : StageSpec
  | flatten : StageSpec
  | dense : Nat → StageSpec
deriving DecidableEq

/-- Modelled from the spec: the construction-time shape contract of each
stage, which the notebook delegates to the external framework.  Normalize
preserves any shape; flatten accepts any rank and collapses it to rank one;
a dense stage of n units accepts only rank-one input and produces shape
(n); an incompatible input shape yields `none`. -/
def stageOutShape : StageSpec → List Nat → Option (List Nat)
  | StageSpec.normalize, s => some s
  | StageSpec.flatten, s => some [s.prod]
  | StageSpec.dense n, s =>
    match s with
    | [_] => some [n]
    | _ => none

/-- Modelled from the spec: pipeline assembly validates adjacent shapes at
construction time, threading the declared shape through the stages and
failing fast with `none` at the first incompatible pair, before any input
data exists. -/
def assemble : List StageSpec → List Nat → Option (List Nat)
  | [], s => some s
  | st :: rest, s =>
    match stageOutShape st s with
    | some s2 => assemble rest s2
    | none => none

/-- C1: for every numeric tensor, `Normalize.call` returns a tensor of
identical shape whose element at every index is the corresponding input
element divided by 255. -/
theorem normalize_call_elementwise (t : Tensor ℚ) :
    (Normalize.call t).shape = t.shape ∧
    (Normalize.call t).data.length = t.data.length ∧
    ∀ i : Nat, (Normalize.call t).data[i]? = (t.data[i]?).map (fun x => x / 255) := by
  refine ⟨rfl, by simp [Normalize.call], fun i => ?_⟩
  simp [Normalize.call, List.getElem?_map]

/-- C2: applying the assembled model runs its stages in exactly the order
given at assembly — Normalize, then Flatten, then Dense(128, relu), then
Dense(10, sigmoid) — and equals that four-stage composition on every
input. -/
theorem model_apply_is_ordered_composition (w1 : List (List ℝ)) (b1 : List ℝ)
    (w2 : List (List ℝ)) (b2 : List ℝ) (t : Tensor ℝ) :
    Pipeline.apply (model w1 b1 w2 b2) t =
      Dense.call w2 b2 sigmoid
        (Dense.call w1 b1 relu (Flatten.call (Normalize.call t))) := rfl

/-- C3: `Pipeline.apply` is deterministic: with the same stages (hence the
same stage parameters), identical inputs yield identical outputs. -/
theorem pipeline_apply_deterministic (p : Pipeline) (t1 t2 : Tensor ℝ)
    (h : t1 = t2) : Pipeline.apply p t1 = Pipeline.apply p t2 := by
  rw [h]

/-- Witness for C3 at the assembled model with zero parameters on a concrete
zero input tensor. -/
theorem pipeline_apply_deterministic_witness :
    Pipeline.apply (model [] [] [] []) ⟨[28, 28], List.replicate 784 0⟩ =
      Pipeline.apply (model [] [] [] []) ⟨[28, 28], List.replicate 784 0⟩ :=
  pipeline_apply_deterministic (model [] [] [] [])
    ⟨[28, 28], List.replicate 784 0⟩ ⟨[28, 28], List.replicate 784 0⟩ rfl

/-- C4: if the shape reaching some stage is incompatible with that stage,
assembly of the whole pipeline fails with `none` at construction time
(assembly consumes only shapes, never input data), whatever stages follow. -/
theorem assemble_rejects_shape_mismatch (pre : List StageSpec) (st : StageSpec)
    (suf : List StageSpec) (inS mid : List Nat)
    (h1 : assemble pre inS = some mid) (h2 : stageOutShape st mid = none) :
    assemble (pre ++ st :: suf) inS = none := by
  induction pre generalizing inS with
  | nil =>
    simp only [assemble, Option.some.injEq] at h1
    subst h1
    simp [assemble, h2]
  | cons a pre ih =>
    simp only [assemble] at h1 ⊢
    cases hA : stageOutShape a inS with
    | none => rw [hA] at h1
    | some s2 => rw [hA] at h1; exact ih s2 h1

/-- Witness for C4: a dense stage fed the rank-two declared shape (28, 28)
makes assembly fail at construction time. -/
theorem assemble_rejects_shape_mismatch_witness :
    assemble ([] ++ StageSpec.dense 5 :: []) [28, 28] = none :=
  assemble_rejects_shape_mismatch [] (StageSpec.dense 5) [] [28, 28] [28, 28]
    rfl rfl

/-- C5: multiplying every element of the transformed tensor by 255
reconstructs the input exactly, so the scale-by-255 map is a right inverse
of the Normalize stage. -/
theorem scaleBack_normalize (t : Tensor ℚ) :
    Normalize.scaleBack (Normalize.call t) = t := by
  cases t with
  | mk shape data =>
    simp only [Normalize.scaleBack, Normalize.call, List.map_map, Tensor.mk.injEq,
      true_and]
    have h : ∀ x : ℚ, x / 255 * 255 = x := fun x => by
      rw [div_mul_cancel₀]
      norm_num
    calc data.map ((fun x => x * 255) ∘ fun x => x / 255)
        = data.map id := List.map_congr_left (fun x _ => h x)
      _ = data := List.map_id data

/-- C6: the Normalize stage sends the (1, 28, 28) tensor filled with 255 to
the (1, 28, 28) tensor filled with 1. -/
theorem normalize_all_255 :
    Normalize.call ⟨[1, 28, 28], List.replicate 784 (255 : ℚ)⟩ =
      ⟨[1, 28, 28], List.replicate 784 1⟩ := by
  simp only [Normalize.call, List.map_replicate, Tensor.mk.injEq, true_and]
  norm_num

/-- C7: assembling the pipeline Normalize, Flatten, Dense(128), Dense(10)
with declared input shape (28, 28) succeeds, and applying the assembled
model with zero parameters to an all-zero input returns a tensor of shape
(10). -/
theorem model_construction_and_output_shape :
    assemble [StageSpec.normalize, StageSpec.flatten, StageSpec.dense 128,
        StageSpec.dense 10] [28, 28] = some [10] ∧
    (Pipeline.apply
        (model (List.replicate 128 (List.replicate 784 0)) (List.replicate 128 0)
          (List.replicate 10 (List.replicate 128 0)) (List.replicate 10 0))
        ⟨[28, 28], List.replicate 784 0⟩).shape = [10] := by
  constructor
  · decide
  · rfl

/-- C8: the Normalize stage is stateless: `build` installs no trainable
kernel for any input shape, `call` leaves the layer state unchanged, and the
output of `call` does not depend on the layer state. -/
theorem normalize_stateless :
    (∀ (l : NormalizeLayer) (s : List Nat), (NormalizeLayer.build l s).kernel = none) ∧
    (∀ (l : NormalizeLayer) (t : Tensor ℚ), (NormalizeLayer.callM l t).1 = l) ∧
    (∀ (l l' : NormalizeLayer) (t : Tensor ℚ),
      (NormalizeLayer.callM l t).2 = (NormalizeLayer.callM l' t).2) :=
  ⟨fun _ _ => rfl, fun _ _ => rfl, fun _ _ _ => rfl⟩

/-- C9: the divisor in `Normalize.call` is the fixed nonzero literal 255, so
the checked elementwise division never reaches a division-by-zero error and
agrees with `Normalize.call` on every input tensor. -/
theorem normalize_division_total :
    (255 : ℚ) ≠ 0 ∧
    ∀ t : Tensor ℚ, Normalize.callChecked t = some (Normalize.call t) := by
  refine ⟨by norm_num, fun t => ?_⟩
  have h : ∀ l : List ℚ, Normalize.mapDivChecked l 255 =
      some (l.map (fun x => x / 255)) := by
    intro l
    induction l with
    | nil => rfl
    | cons x xs ih =>
      simp [Normalize.mapDivChecked, Normalize.divChecked, ih]
  simp [Normalize.callChecked, Normalize.call, h]

/-- The sigmoid function is strictly positive. -/
theorem sigmoid_pos (x : ℝ) : 0 < sigmoid x := by
  unfold sigmoid
  positivity

/-- The sigmoid function is strictly below one. -/
theorem sigmoid_lt_one (x : ℝ) : sigmoid x < 1 := by
  unfold sigmoid
  rw [div_lt_one (by positivity)]
  linarith [Real.exp_pos (-x)]

/-- C10: every element of the assembled model's output lies strictly between
0 and 1, because the final stage applies sigmoid elementwise; and the ten
output scores need not sum to 1, witnessed by a parameter setting whose ten
outputs sum to 5. -/
theorem model_output_open_unit_interval :
    (∀ (w1 : List (List ℝ)) (b1 : List ℝ) (w2 : List (List ℝ)) (b2 : List ℝ)
        (t : Tensor ℝ) (y : ℝ),
      y ∈ (Pipeline.apply (model w1 b1 w2 b2) t).data → 0 < y ∧ y < 1) ∧
    (∃ (w1 : List (List ℝ)) (b1 : List ℝ) (w2 : List (List ℝ)) (b2 : List ℝ)
        (t : Tensor ℝ),
      (Pipeline.apply (model w1 b1 w2 b2) t).data.length = 10 ∧
      (Pipeline.apply (model w1 b1 w2 b2) t).data.sum ≠ 1) := by
  constructor
  · intro w1 b1 w2 b2 t y hy
    simp only [Pipeline.apply, model, List.foldl, Dense.call, List.mem_map] at hy
    obtain ⟨p, _, rfl⟩ := hy
    exact ⟨sigmoid_pos _, sigmoid_lt_one _⟩
  · refine ⟨[], [], List.replicate 10 [], List.replicate 10 0, ⟨[], []⟩, ?_, ?_⟩
    · rfl
    · have hdata : (Pipeline.apply
          (model [] [] (List.replicate 10 []) (List.replicate 10 0))
          ⟨[], []⟩).data = List.replicate 10 (sigmoid (dot [] [] + 0)) := rfl
      rw [hdata, List.sum_replicate]
      have hdot : dot [] [] + 0 = 0 := by simp [dot]
      have hs : sigmoid (dot [] [] + 0) = 1 / 2 := by
        rw [hdot]
        unfold sigmoid
        rw [neg_zero, Real.exp_zero]
        norm_num
      rw [hs]
      norm_num

/-- Witness for C10 at a concrete parameter setting: the first output score
of the zero-parameter, zero-dimension model lies strictly between 0 and 1. -/
theorem model_output_open_unit_interval_witness :
    0 < sigmoid (dot [] [] + 0) ∧ sigmoid (dot [] [] + 0) < 1 :=
  model_output_open_unit_interval.1 [] [] (List.replicate 10 [])
    (List.replicate 10 0) ⟨[], []⟩ (sigmoid (dot [] [] + 0))
    (show sigmoid (dot [] [] + 0) ∈ List.replicate 10 (sigmoid (dot [] [] + 0)) from
      List.mem_replicate.mpr ⟨by decide, rfl⟩)
